import Mathlib

/-!
Shallow embedding of the appointment-scheduling core
(models/appointment.py, models/repository.py,
controllers/appointment_controller.py).

Conventions of the embedding:
* Python `datetime.time` values are `Time` records (hour, minute, second,
  microsecond); comparison of two times is Python's lexicographic tuple
  comparison.
* Python `datetime.date` values are `Date` records (year, month, day) with
  lexicographic comparison.
* Python `datetime.datetime` values are `DateTime` records (a date and a
  time); `datetime.combine(d, t)` is `DateTime.combine d t`.
* The JSON record written by `Appointment.to_dict` is an `AppointmentDict`.
  Its string fields are represented by their parsed content, which loses
  no information for in-range values: the `"YYYY-MM-DD"` date string is
  kept as a `Date`, the ISO timestamp strings as `DateTime`s, and the
  `"%H:%M"`-formatted time strings as `(hour, minute)` pairs — exactly the
  data those strings carry (seconds and microseconds are dropped by
  `strftime("%H:%M")`, which the pair representation reflects).
* The JSON datastore behind `AppointmentRepository` is a `Store`, the list
  of serialized records in file order; each repository operation takes the
  current store and returns its result together with the new store.
* `datetime.now()` is an explicit `now : DateTime` argument, and the random
  `Appointment.generate_id()` an explicit `newId : String` argument.
* String tests from the source are computed on `String.data` (the list of
  characters), where Python's operations have direct structural
  counterparts: `not s.strip()` is "every character is whitespace",
  `c in s` for a one-character `c` is `List.contains`, and
  `s.split(sep)` for a one-character separator is `splitOnChar`.
-/

/-- Python `datetime.time`: hour, minute, second, microsecond. -/
structure Time where
  hour : Nat
  minute : Nat
  second : Nat
  microsecond : Nat
deriving DecidableEq

namespace Time

/-- Python compares `time` values as (hour, minute, second, microsecond)
tuples, lexicographically. -/
def ltb (a b : Time) : Bool :=
  a.hour < b.hour ||
    (a.hour = b.hour && (a.minute < b.minute ||
      (a.minute = b.minute && (a.second < b.second ||
        (a.second = b.second && a.microsecond < b.microsecond)))))

/-- `a <= b` on Python `time` values (`not (b < a)`). -/
def leb (a b : Time) : Bool := !ltb b a

/-- The time of day in microseconds; the difference of two same-date
`datetime`s in microseconds is the difference of these numbers. -/
def toMicros (t : Time) : Nat :=
  ((t.hour * 60 + t.minute) * 60 + t.second) * 1000000 + t.microsecond

end Time

/-- Python `datetime.date`: year, month, day. -/
structure Date where
  year : Nat
  month : Nat
  day : Nat
deriving DecidableEq

namespace Date

/-- Lexicographic comparison of dates, as Python compares `date` values. -/
def ltb (a b : Date) : Bool :=
  a.year < b.year ||
    (a.year = b.year && (a.month < b.month ||
      (a.month = b.month && a.day < b.day)))

end Date

/-- Python `datetime.datetime`, as produced by `datetime.combine`. -/
structure DateTime where
  date : Date
  time : Time
deriving DecidableEq

namespace DateTime

/-- `datetime.combine(d, t)`. -/
def combine (d : Date) (t : Time) : DateTime := ⟨d, t⟩

/-- Lexicographic comparison: date first, then time of day. -/
def ltb (a b : DateTime) : Bool :=
  Date.ltb a.date b.date || (a.date = b.date && Time.ltb a.time b.time)

/-- `a <= b` on `datetime` values (`not (b < a)`). -/
def leb (a b : DateTime) : Bool := !ltb b a

end DateTime

/- `models/appointment.py`, class `AppointmentStatus`. -/
namespace AppointmentStatus

def SCHEDULED : String := "Scheduled"

def COMPLETED : String := "Completed"

def CANCELLED : String := "Cancelled"

def NO_SHOW : String := "No Show"

def ALL : List String := [SCHEDULED, COMPLETED, CANCELLED, NO_SHOW]

end AppointmentStatus

/-- `models/appointment.py`, dataclass `Appointment`. -/
structure Appointment where
  id : String
  title : String
  client_name : String
  client_email : String
  client_phone : String
  date : Date
  start_time : Time
  end_time : Time
  status : String
  notes : String
  created_at : DateTime
  updated_at : DateTime
deriving DecidableEq

/-- The record `Appointment.to_dict` writes to the JSON store. Field
`date` models the `date.isoformat()` string, `start_time` / `end_time`
the `strftime("%H:%M")` strings as (hour, minute) pairs, `created_at` /
`updated_at` the `datetime.isoformat()` strings. -/
structure AppointmentDict where
  id : String
  title : String
  client_name : String
  client_email : String
  client_phone : String
  date : Date
  start_time : Nat × Nat
  end_time : Nat × Nat
  status : String
  notes : String
  created_at : DateTime
  updated_at : DateTime
deriving DecidableEq

namespace Appointment

/-- `Appointment.start_datetime`: `datetime.combine(self.date, self.start_time)`. -/
def start_datetime (a : Appointment) : DateTime := DateTime.combine a.date a.start_time

/-- `Appointment.end_datetime`: `datetime.combine(self.date, self.end_time)`. -/
def end_datetime (a : Appointment) : DateTime := DateTime.combine a.date a.end_time

/-- `Appointment.to_dict`. `strftime("%H:%M")` keeps only hour and minute. -/
def to_dict (a : Appointment) : AppointmentDict where
  id := a.id
  title := a.title
  client_name := a.client_name
  client_email := a.client_email
  client_phone := a.client_phone
  date := a.date
  start_time := (a.start_time.hour, a.start_time.minute)
  end_time := (a.end_time.hour, a.end_time.minute)
  status := a.status
  notes := a.notes
  created_at := a.created_at
  updated_at := a.updated_at

/-- `Appointment.from_dict`. `time.fromisoformat("HH:MM")` yields a time
with second and microsecond 0. (The `.get` defaults for `notes`,
`created_at` and `updated_at` never fire on records written by `to_dict`,
which always stores all three keys.) -/
def from_dict (d : AppointmentDict) : Appointment where
  id := d.id
  title := d.title
  client_name := d.client_name
  client_email := d.client_email
  client_phone := d.client_phone
  date := d.date
  start_time := ⟨d.start_time.1, d.start_time.2, 0, 0⟩
  end_time := ⟨d.end_time.1, d.end_time.2, 0, 0⟩
  status := d.status
  notes := d.notes
  created_at := d.created_at
  updated_at := d.updated_at

end Appointment

/-- Python `not s.strip()`: the string has no non-whitespace character. -/
def strBlank (s : String) : Bool := s.data.all Char.isWhitespace

/-- Python `s.split(sep)` for a one-character separator, on the character
list: always returns a non-empty list of (possibly empty) pieces. -/
def splitOnChar (c : Char) : List Char → List (List Char)
  | [] => [[]]
  | x :: xs =>
    match splitOnChar c xs with
    | [] => [[]]
    | h :: t => if x = c then [] :: h :: t else (x :: h) :: t

/- `models/appointment.py`, class `AppointmentValidator`. -/
namespace AppointmentValidator

/-- The condition of `elif "@" not in client_email or "." not in
client_email.split("@")[-1]`. -/
def badEmailFormat (client_email : String) : Bool :=
  !client_email.data.contains '@' ||
    !((splitOnChar '@' client_email.data).getLastD []).contains '.'

/-- `AppointmentValidator.validate`. Errors are accumulated in source
order. Both `datetime.combine` calls use the same `appt_date`, so the
`end_dt <= start_dt` test is the lexicographic time comparison and the
timedelta in microseconds is the difference of `Time.toMicros` values
(`.total_seconds() < 15 * 60` iff the microsecond difference is below
`15 * 60 * 10^6`). -/
def validate (title client_name client_email client_phone : String)
    (appt_date : Date) (start_time end_time : Time) (status : String) :
    List String :=
  let start_dt := DateTime.combine appt_date start_time
  let end_dt := DateTime.combine appt_date end_time
  (if strBlank title then ["Title is required."] else []) ++
  (if strBlank client_name then ["Client name is required."] else []) ++
  (if strBlank client_email then ["Client email is required."]
   else if badEmailFormat client_email then ["Please enter a valid email address."]
   else []) ++
  (if strBlank client_phone then ["Client phone is required."] else []) ++
  (if !AppointmentStatus.ALL.contains status then ["Invalid status: " ++ status] else []) ++
  (if DateTime.leb end_dt start_dt then ["End time must be after start time."] else []) ++
  (if (end_dt.time.toMicros : Int) - start_dt.time.toMicros < 15 * 60 * 1000000
   then ["Appointment must be at least 15 minutes long."] else [])

end AppointmentValidator

/- `models/repository.py`, class `AppointmentRepository`. The JSON file's
contents — the list of serialized records, in file order — is the
repository's state; `_read` returns it and `_write` replaces it. -/
abbrev Store : Type := List AppointmentDict

namespace AppointmentRepository

/-- `get_all`: parse every stored record. -/
def get_all (s : Store) : List Appointment :=
  List.map Appointment.from_dict s

/-- `get_by_id`: parse the first stored record whose `"id"` key matches. -/
def get_by_id (appt_id : String) (s : Store) : Option Appointment :=
  (List.find? (fun r => r.id = appt_id) s).map Appointment.from_dict

/-- `create`: append the serialized record and return the appointment. -/
def create (appt : Appointment) (s : Store) : Appointment × Store :=
  (appt, List.append s [appt.to_dict])

/-- The loop of `update`: replace the first record whose `"id"` matches
`a.id` by `a.to_dict`; `none` when no record matches. -/
def updateRecords (a : Appointment) : List AppointmentDict → Option (List AppointmentDict)
  | [] => none
  | r :: rs =>
    if r.id = a.id then some (a.to_dict :: rs)
    else (updateRecords a rs).map (fun rs₂ => r :: rs₂)

/-- `update`: on a match, stamp `updated_at` to now, overwrite the matching
record in place, and return the appointment; else return `None` and leave
the store as it was. -/
def update (now : DateTime) (appt : Appointment) (s : Store) : Option Appointment × Store :=
  let a := { appt with updated_at := now }
  match updateRecords a s with
  | some s₂ => (some a, s₂)
  | none => (none, s)

/-- `delete`: drop every record whose `"id"` matches; report whether the
store shrank, writing only when it did. -/
def delete (appt_id : String) (s : Store) : Bool × Store :=
  let new_records := List.filter (fun r => !(r.id = appt_id : Bool)) s
  if new_records.length = s.length then (false, s) else (true, new_records)

/-- `get_by_status`. -/
def get_by_status (status : String) (s : Store) : List Appointment :=
  (get_all s).filter (fun a => a.status = status)

/-- `get_by_date`. -/
def get_by_date (target_date : Date) (s : Store) : List Appointment :=
  (get_all s).filter (fun a => a.date = target_date)

/-- `get_by_date_range` (inclusive both ends; Python chains
`start <= a.date <= end`). -/
def get_by_date_range (start «end» : Date) (s : Store) : List Appointment :=
  (get_all s).filter (fun a =>
    !(Date.ltb a.date start) && !(Date.ltb «end» a.date))

/-- `get_upcoming`: Scheduled appointments strictly after `now`, sorted
ascending by `start_datetime` (Python's `sorted` is a stable merge sort). -/
def get_upcoming (now : DateTime) (s : Store) : List Appointment :=
  (List.filter (fun a => DateTime.ltb now a.start_datetime &&
      (a.status = AppointmentStatus.SCHEDULED : Bool)) (get_all s)).mergeSort
    (fun a b => DateTime.leb a.start_datetime b.start_datetime)

/-- Python `q in s` on character lists: some contiguous run of `hay`
equals `needle`. -/
def containsSub (needle : List Char) : List Char → Bool
  | [] => needle.isEmpty
  | x :: xs => needle.isPrefixOf (x :: xs) || containsSub needle xs

/-- `search` (`q` is the lowered, stripped query; lowering of the record
fields is modelled by a case-fold on the character lists). Not used by any
controller path a claim touches; included for the query surface. -/
def search (q : List Char) (s : Store) : List Appointment :=
  (get_all s).filter (fun a =>
    containsSub (q.map Char.toLower) (a.title.data.map Char.toLower) ||
    containsSub (q.map Char.toLower) (a.client_name.data.map Char.toLower) ||
    containsSub (q.map Char.toLower) (a.client_email.data.map Char.toLower) ||
    containsSub (q.map Char.toLower) (a.notes.data.map Char.toLower))

/-- The dict returned by `get_stats`. -/
structure Stats where
  total : Nat
  scheduled : Nat
  completed : Nat
  cancelled : Nat
  no_show : Nat
  today : Nat
  upcoming : Nat
deriving DecidableEq

/-- `get_stats`. `now.date` is Python's `datetime.now().date()`. -/
def get_stats (now : DateTime) (s : Store) : Stats :=
  let all_appts := get_all s
  { total := all_appts.length
    scheduled := (all_appts.filter (fun a => (a.status = AppointmentStatus.SCHEDULED : Bool))).length
    completed := (all_appts.filter (fun a => (a.status = AppointmentStatus.COMPLETED : Bool))).length
    cancelled := (all_appts.filter (fun a => (a.status = AppointmentStatus.CANCELLED : Bool))).length
    no_show := (all_appts.filter (fun a => (a.status = AppointmentStatus.NO_SHOW : Bool))).length
    today := (all_appts.filter (fun a => (a.date = now.date : Bool))).length
    upcoming := (get_upcoming now s).length }

end AppointmentRepository

/-- The result dict a controller write operation returns:
`{"success": bool}` with optional `"appointment"` and `"errors"` keys. -/
structure ControllerResult where
  success : Bool
  appointment : Option Appointment := none
  errors : List String := []
deriving DecidableEq

/- `controllers/appointment_controller.py`, class `AppointmentController`.
Each write operation maps the current store to (returned dict, new store). -/
namespace AppointmentController

open AppointmentRepository

/-- Python truthiness of the `Optional[str]` argument `exclude_id`:
falsy when `None` or the empty string. -/
def optStrTruthy : Option String → Bool
  | none => false
  | some s => !(s = "" : Bool)

/-- `strftime("%H:%M")` as a string, for the conflict message. -/
def pad2 (n : Nat) : String := if n < 10 then "0" ++ toString n else toString n

/-- A time formatted `"%H:%M"`. -/
def fmtHM (t : Time) : String := pad2 t.hour ++ ":" ++ pad2 t.minute

/-- The single error message built from a conflicting appointment, in both
`create_appointment` and `update_appointment`. -/
def conflictMsg (conflict : Appointment) : String :=
  "Time conflict with appointment '" ++ conflict.title ++ "' (" ++
    fmtHM conflict.start_time ++ " – " ++ fmtHM conflict.end_time ++ ")."

/-- The loop body of `_check_conflict`: `existing` conflicts unless it is
skipped (excluded id, or Cancelled), and intervals overlap iff
`start_time < existing.end_time and end_time > existing.start_time`. -/
def conflictsWith (start_time end_time : Time) (exclude_id : Option String)
    (existing : Appointment) : Bool :=
  !(optStrTruthy exclude_id && (some existing.id = exclude_id : Bool)) &&
  !(existing.status = AppointmentStatus.CANCELLED : Bool) &&
  Time.ltb start_time existing.end_time &&
  Time.ltb existing.start_time end_time

/-- `AppointmentController._check_conflict`: the first same-date
appointment that is not skipped and overlaps, or `None`. -/
def check_conflict (appt_date : Date) (start_time end_time : Time)
    (exclude_id : Option String) (s : Store) : Option Appointment :=
  (get_by_date appt_date s).find? (conflictsWith start_time end_time exclude_id)

/-- `AppointmentController.create_appointment`. `newId` stands for
`Appointment.generate_id()` and `now` for the `datetime.now()` the
dataclass default factories stamp into `created_at` / `updated_at`. -/
def create_appointment (newId : String) (now : DateTime)
    (title client_name client_email client_phone : String)
    (appt_date : Date) (start_time end_time : Time)
    (status : String) (notes : String) (s : Store) :
    ControllerResult × Store :=
  let errors := AppointmentValidator.validate title client_name client_email
    client_phone appt_date start_time end_time status
  if errors ≠ [] then ({ success := false, errors := errors }, s)
  else
    match check_conflict appt_date start_time end_time none s with
    | some conflict =>
      ({ success := false, errors := [conflictMsg conflict] }, s)
    | none =>
      let appt : Appointment :=
        { id := newId, title := title, client_name := client_name
          client_email := client_email, client_phone := client_phone
          date := appt_date, start_time := start_time, end_time := end_time
          status := status, notes := notes
          created_at := now, updated_at := now }
      let created := AppointmentRepository.create appt s
      ({ success := true, appointment := some created.1 }, created.2)

/-- `AppointmentController.update_appointment`: validate, look the record
up, check conflicts excluding the record itself, replace every mutable
field on the parsed record and persist it through `Repository.update`. -/
def update_appointment (now : DateTime) (appt_id : String)
    (title client_name client_email client_phone : String)
    (appt_date : Date) (start_time end_time : Time)
    (status : String) (notes : String) (s : Store) :
    ControllerResult × Store :=
  let errors := AppointmentValidator.validate title client_name client_email
    client_phone appt_date start_time end_time status
  if errors ≠ [] then ({ success := false, errors := errors }, s)
  else
    match get_by_id appt_id s with
    | none => ({ success := false, errors := ["Appointment not found."] }, s)
    | some existing =>
      match check_conflict appt_date start_time end_time (some appt_id) s with
      | some conflict =>
        ({ success := false, errors := [conflictMsg conflict] }, s)
      | none =>
        let existing₂ := { existing with
          title := title, client_name := client_name
          client_email := client_email, client_phone := client_phone
          date := appt_date, start_time := start_time, end_time := end_time
          status := status, notes := notes }
        let updated := AppointmentRepository.update now existing₂ s
        ({ success := true, appointment := updated.1 }, updated.2)

/-- `AppointmentController.delete_appointment`. -/
def delete_appointment (appt_id : String) (s : Store) : ControllerResult × Store :=
  let deleted := AppointmentRepository.delete appt_id s
  if deleted.1 then ({ success := true }, deleted.2)
  else ({ success := false, errors := ["Appointment not found."] }, deleted.2)

/-- `AppointmentController.update_status`: look up, check the status
against the closed set, set it and persist. The returned appointment is
the same object `Repository.update` stamps `updated_at` on (when the
lookup just succeeded, `update` finds the same record again). -/
def update_status (now : DateTime) (appt_id new_status : String) (s : Store) :
    ControllerResult × Store :=
  match get_by_id appt_id s with
  | none => ({ success := false, errors := ["Appointment not found."] }, s)
  | some appt =>
    if !AppointmentStatus.ALL.contains new_status then
      ({ success := false, errors := ["Invalid status: " ++ new_status] }, s)
    else
      let appt₂ := { appt with status := new_status }
      let updated := AppointmentRepository.update now appt₂ s
      match updated.1 with
      | some a => ({ success := true, appointment := some a }, updated.2)
      | none => ({ success := true, appointment := some appt₂ }, updated.2)

end AppointmentController

/-!
Helper lemmas shared by the claim theorems.
-/

lemma Date.ltb_self (d : Date) : Date.ltb d d = false := by
  simp [Date.ltb]

lemma DateTime.ltb_mk_same (d : Date) (t u : Time) :
    DateTime.ltb ⟨d, t⟩ ⟨d, u⟩ = Time.ltb t u := by
  simp [DateTime.ltb, Date.ltb_self]

/-- A time never sorts strictly before its own truncation to minute
precision: the truncation only drops seconds and microseconds. -/
lemma Time.ltb_trunc_self (t : Time) :
    Time.ltb t ⟨t.hour, t.minute, 0, 0⟩ = false := by
  simp [Time.ltb]

/-- When some member of a list satisfies a predicate, `find?` returns an
element satisfying it. -/
lemma exists_find?_eq_some {α : Type} {l : List α} {p : α → Bool} {x : α}
    (hx : x ∈ l) (hp : p x = true) : ∃ c, l.find? p = some c ∧ p c = true := by
  cases h : l.find? p with
  | some c => exact ⟨c, rfl, List.find?_some h⟩
  | none => exact absurd hp (List.find?_eq_none.mp h x hx)

/-- `from_dict ∘ to_dict` reproduces the record whenever both times of day
carry no seconds or microseconds (the only data `strftime("%H:%M")`
drops). -/
lemma from_dict_to_dict (a : Appointment)
    (h1 : a.start_time.second = 0) (h2 : a.start_time.microsecond = 0)
    (h3 : a.end_time.second = 0) (h4 : a.end_time.microsecond = 0) :
    Appointment.from_dict (Appointment.to_dict a) = a := by
  cases a with
  | mk id title cn ce cp d st et status notes ca ua =>
    cases st
    cases et
    simp_all [Appointment.from_dict, Appointment.to_dict]

/-- Replacing the first record whose id matches `a.id` succeeds whenever a
lookup by that id succeeds, and the replacement is what the lookup then
finds. -/
lemma updateRecords_find? (i : String) (a : Appointment) (hai : a.id = i) :
    ∀ s : List AppointmentDict, ∀ r, List.find? (fun x => (x.id = i : Bool)) s = some r →
      ∃ s₂, AppointmentRepository.updateRecords a s = some s₂ ∧
        List.find? (fun x => (x.id = i : Bool)) s₂ = some a.to_dict := by
  intro s
  induction s with
  | nil => intro r h; simp [List.find?] at h
  | cons x xs ih =>
    intro r h
    by_cases hx : x.id = i
    · refine ⟨a.to_dict :: xs, ?_, ?_⟩
      · simp [AppointmentRepository.updateRecords, hx, hai]
      · simp [List.find?, Appointment.to_dict, hai]
    · have h₂ : List.find? (fun x => (x.id = i : Bool)) xs = some r := by
        simpa [List.find?, hx] using h
      obtain ⟨s₂, h3, h4⟩ := ih r h₂
      have hxa : ¬ x.id = a.id := by rw [hai]; exact hx
      refine ⟨x :: s₂, ?_, ?_⟩
      · simp [AppointmentRepository.updateRecords, hxa, h3]
      · simp [List.find?, hx, h4]

/-!
Claim theorems.
-/

/-- C1, counterexample to the claim as stated: the universally quantified
claim also covers candidates whose other fields fail validation. Stored
appointment "First" occupies 09:00–10:00 on 2025-06-01 (Scheduled); the
candidate overlaps it at 09:30–09:45 with Scheduled status but an empty
title. Creation does fail, but its failure result carries the
title-validation message, not the single conflict message naming "First"
that the claim requires. -/
theorem invalid_candidate_gets_validation_error_not_conflict :
    (AppointmentController.create_appointment "B1" ⟨⟨2025, 5, 1⟩, ⟨12, 0, 0, 0⟩⟩
        "" "Bob" "bob@example.com" "456" ⟨2025, 6, 1⟩ ⟨9, 30, 0, 0⟩ ⟨9, 45, 0, 0⟩
        "Scheduled" ""
        [⟨"A1", "First", "Ann", "ann@example.com", "123", ⟨2025, 6, 1⟩, (9, 0),
          (10, 0), "Scheduled", "", ⟨⟨2025, 5, 1⟩, ⟨12, 0, 0, 0⟩⟩,
          ⟨⟨2025, 5, 1⟩, ⟨12, 0, 0, 0⟩⟩⟩]).1.success = false ∧
    (AppointmentController.create_appointment "B1" ⟨⟨2025, 5, 1⟩, ⟨12, 0, 0, 0⟩⟩
        "" "Bob" "bob@example.com" "456" ⟨2025, 6, 1⟩ ⟨9, 30, 0, 0⟩ ⟨9, 45, 0, 0⟩
        "Scheduled" ""
        [⟨"A1", "First", "Ann", "ann@example.com", "123", ⟨2025, 6, 1⟩, (9, 0),
          (10, 0), "Scheduled", "", ⟨⟨2025, 5, 1⟩, ⟨12, 0, 0, 0⟩⟩,
          ⟨⟨2025, 5, 1⟩, ⟨12, 0, 0, 0⟩⟩⟩]).1.errors = ["Title is required."] ∧
    (AppointmentController.create_appointment "B1" ⟨⟨2025, 5, 1⟩, ⟨12, 0, 0, 0⟩⟩
        "" "Bob" "bob@example.com" "456" ⟨2025, 6, 1⟩ ⟨9, 30, 0, 0⟩ ⟨9, 45, 0, 0⟩
        "Scheduled" ""
        [⟨"A1", "First", "Ann", "ann@example.com", "123", ⟨2025, 6, 1⟩, (9, 0),
          (10, 0), "Scheduled", "", ⟨⟨2025, 5, 1⟩, ⟨12, 0, 0, 0⟩⟩,
          ⟨⟨2025, 5, 1⟩, ⟨12, 0, 0, 0⟩⟩⟩]).1.errors ≠
      [AppointmentController.conflictMsg (Appointment.from_dict
        ⟨"A1", "First", "Ann", "ann@example.com", "123", ⟨2025, 6, 1⟩, (9, 0),
          (10, 0), "Scheduled", "", ⟨⟨2025, 5, 1⟩, ⟨12, 0, 0, 0⟩⟩,
          ⟨⟨2025, 5, 1⟩, ⟨12, 0, 0, 0⟩⟩⟩)] := by
  refine ⟨by decide, by decide, by decide⟩

/-- C1 (amended: the candidate's fields pass validation): whenever some
appointment on the candidate's date, with status other than Cancelled,
has a half-open interval overlapping the candidate's
(`candidate.start < existing.end` and `existing.start < candidate.end`),
`create_appointment` — and `update_appointment` for any resolvable id
other than that appointment's — returns failure with a single conflict
error message and leaves the store exactly as it was. -/
theorem conflict_rejected_without_persisting
    (newId : String) (now : DateTime)
    (title client_name client_email client_phone : String)
    (appt_date : Date) (start_time end_time : Time) (status notes : String)
    (s : Store) (ex : Appointment)
    (hval : AppointmentValidator.validate title client_name client_email
      client_phone appt_date start_time end_time status = [])
    (hex : ex ∈ AppointmentRepository.get_by_date appt_date s)
    (hcanc : ex.status ≠ AppointmentStatus.CANCELLED)
    (hov1 : Time.ltb start_time ex.end_time = true)
    (hov2 : Time.ltb ex.start_time end_time = true) :
    ((AppointmentController.create_appointment newId now title client_name
        client_email client_phone appt_date start_time end_time status notes
        s).1.success = false ∧
      (∃ c, (AppointmentController.create_appointment newId now title client_name
        client_email client_phone appt_date start_time end_time status notes
        s).1.errors = [AppointmentController.conflictMsg c]) ∧
      (AppointmentController.create_appointment newId now title client_name
        client_email client_phone appt_date start_time end_time status notes
        s).2 = s)
    ∧ (∀ appt_id, (AppointmentRepository.get_by_id appt_id s).isSome = true →
      ex.id ≠ appt_id →
      (AppointmentController.update_appointment now appt_id title client_name
        client_email client_phone appt_date start_time end_time status notes
        s).1.success = false ∧
      (∃ c, (AppointmentController.update_appointment now appt_id title client_name
        client_email client_phone appt_date start_time end_time status notes
        s).1.errors = [AppointmentController.conflictMsg c]) ∧
      (AppointmentController.update_appointment now appt_id title client_name
        client_email client_phone appt_date start_time end_time status notes
        s).2 = s) := by
  constructor
  · have hpred : AppointmentController.conflictsWith start_time end_time none ex = true := by
      simp [AppointmentController.conflictsWith, AppointmentController.optStrTruthy,
        hcanc, hov1, hov2]
    obtain ⟨c, hc, _⟩ := exists_find?_eq_some hex hpred
    have hcc : AppointmentController.check_conflict appt_date start_time end_time
        none s = some c := hc
    refine ⟨?_, ⟨c, ?_⟩, ?_⟩ <;>
      simp [AppointmentController.create_appointment, hval, hcc]
  · intro appt_id hsome hne
    have hpred : AppointmentController.conflictsWith start_time end_time
        (some appt_id) ex = true := by
      simp [AppointmentController.conflictsWith, AppointmentController.optStrTruthy,
        hcanc, hov1, hov2, hne]
    obtain ⟨c, hc, _⟩ := exists_find?_eq_some hex hpred
    have hcc : AppointmentController.check_conflict appt_date start_time end_time
        (some appt_id) s = some c := hc
    cases hgb : AppointmentRepository.get_by_id appt_id s with
    | none => rw [hgb] at hsome; simp at hsome
    | some existing =>
      refine ⟨?_, ⟨c, ?_⟩, ?_⟩ <;>
        simp [AppointmentController.update_appointment, hval, hgb, hcc]

/-- Witness for C1's amended theorem: a valid 09:30–09:45 candidate against
the stored 09:00–10:00 appointment is rejected and the store is unchanged. -/
theorem conflict_rejected_without_persisting_witness :
    (AppointmentController.create_appointment "B1" ⟨⟨2025, 5, 1⟩, ⟨12, 0, 0, 0⟩⟩
        "Second" "Bob" "bob@example.com" "456" ⟨2025, 6, 1⟩ ⟨9, 30, 0, 0⟩
        ⟨9, 45, 0, 0⟩ "Scheduled" ""
        [⟨"A1", "First", "Ann", "ann@example.com", "123", ⟨2025, 6, 1⟩, (9, 0),
          (10, 0), "Scheduled", "", ⟨⟨2025, 5, 1⟩, ⟨12, 0, 0, 0⟩⟩,
          ⟨⟨2025, 5, 1⟩, ⟨12, 0, 0, 0⟩⟩⟩]).1.success = false ∧
    (AppointmentController.create_appointment "B1" ⟨⟨2025, 5, 1⟩, ⟨12, 0, 0, 0⟩⟩
        "Second" "Bob" "bob@example.com" "456" ⟨2025, 6, 1⟩ ⟨9, 30, 0, 0⟩
        ⟨9, 45, 0, 0⟩ "Scheduled" ""
        [⟨"A1", "First", "Ann", "ann@example.com", "123", ⟨2025, 6, 1⟩, (9, 0),
          (10, 0), "Scheduled", "", ⟨⟨2025, 5, 1⟩, ⟨12, 0, 0, 0⟩⟩,
          ⟨⟨2025, 5, 1⟩, ⟨12, 0, 0, 0⟩⟩⟩]).2 =
      [⟨"A1", "First", "Ann", "ann@example.com", "123", ⟨2025, 6, 1⟩, (9, 0),
        (10, 0), "Scheduled", "", ⟨⟨2025, 5, 1⟩, ⟨12, 0, 0, 0⟩⟩,
        ⟨⟨2025, 5, 1⟩, ⟨12, 0, 0, 0⟩⟩⟩] := by
  obtain ⟨⟨h1, _, h3⟩, _⟩ := conflict_rejected_without_persisting "B1"
    ⟨⟨2025, 5, 1⟩, ⟨12, 0, 0, 0⟩⟩ "Second" "Bob" "bob@example.com" "456"
    ⟨2025, 6, 1⟩ ⟨9, 30, 0, 0⟩ ⟨9, 45, 0, 0⟩ "Scheduled" ""
    [⟨"A1", "First", "Ann", "ann@example.com", "123", ⟨2025, 6, 1⟩, (9, 0),
      (10, 0), "Scheduled", "", ⟨⟨2025, 5, 1⟩, ⟨12, 0, 0, 0⟩⟩,
      ⟨⟨2025, 5, 1⟩, ⟨12, 0, 0, 0⟩⟩⟩]
    (Appointment.from_dict
      ⟨"A1", "First", "Ann", "ann@example.com", "123", ⟨2025, 6, 1⟩, (9, 0),
        (10, 0), "Scheduled", "", ⟨⟨2025, 5, 1⟩, ⟨12, 0, 0, 0⟩⟩,
        ⟨⟨2025, 5, 1⟩, ⟨12, 0, 0, 0⟩⟩⟩)
    (by decide) (by decide) (by decide) (by decide) (by decide)
  exact ⟨h1, h3⟩

/-- C2: two appointments on the same date whose fields individually pass
validation and whose intervals are back-to-back (the first one's
`end_time` equals the second one's `start_time`) can both be created:
starting from an empty store, both calls return success — touching
endpoints are never reported as a conflict. -/
theorem back_to_back_creates_succeed
    (id1 id2 : String) (now1 now2 : DateTime)
    (title1 cn1 ce1 cp1 : String) (d : Date) (st1 et1 : Time) (status1 notes1 : String)
    (title2 cn2 ce2 cp2 : String) (st2 et2 : Time) (status2 notes2 : String)
    (hv1 : AppointmentValidator.validate title1 cn1 ce1 cp1 d st1 et1 status1 = [])
    (hv2 : AppointmentValidator.validate title2 cn2 ce2 cp2 d st2 et2 status2 = [])
    (hb2b : et1 = st2) :
    (AppointmentController.create_appointment id1 now1 title1 cn1 ce1 cp1 d st1
      et1 status1 notes1 []).1.success = true ∧
    (AppointmentController.create_appointment id2 now2 title2 cn2 ce2 cp2 d st2
      et2 status2 notes2
      (AppointmentController.create_appointment id1 now1 title1 cn1 ce1 cp1 d st1
        et1 status1 notes1 []).2).1.success = true := by
  subst hb2b
  have hs1 : (AppointmentController.create_appointment id1 now1 title1 cn1 ce1 cp1
      d st1 et1 status1 notes1 []).2 =
      [Appointment.to_dict ⟨id1, title1, cn1, ce1, cp1, d, st1, et1, status1,
        notes1, now1, now1⟩] := by
    simp [AppointmentController.create_appointment, hv1,
      AppointmentController.check_conflict, AppointmentRepository.get_by_date,
      AppointmentRepository.get_all, AppointmentRepository.create]
  have hcc2 : AppointmentController.check_conflict d et1 et2 none
      [Appointment.to_dict ⟨id1, title1, cn1, ce1, cp1, d, st1, et1, status1,
        notes1, now1, now1⟩] = none := by
    simp [AppointmentController.check_conflict, AppointmentRepository.get_by_date,
      AppointmentRepository.get_all, Appointment.from_dict, Appointment.to_dict,
      List.find?, AppointmentController.conflictsWith, Time.ltb_trunc_self]
  constructor
  · simp [AppointmentController.create_appointment, hv1,
      AppointmentController.check_conflict, AppointmentRepository.get_by_date,
      AppointmentRepository.get_all]
  · rw [hs1]
    simp [AppointmentController.create_appointment, hv2, hcc2]

/-- Witness for C2: 09:00–10:00 then 10:00–10:30 on the same date, both
valid; both creations succeed. -/
theorem back_to_back_creates_succeed_witness :
    (AppointmentController.create_appointment "A1" ⟨⟨2025, 5, 1⟩, ⟨12, 0, 0, 0⟩⟩
      "First" "Ann" "ann@example.com" "123" ⟨2025, 6, 1⟩ ⟨9, 0, 0, 0⟩
      ⟨10, 0, 0, 0⟩ "Scheduled" "" []).1.success = true ∧
    (AppointmentController.create_appointment "C1" ⟨⟨2025, 5, 1⟩, ⟨12, 5, 0, 0⟩⟩
      "Third" "Cyd" "cyd@example.com" "789" ⟨2025, 6, 1⟩ ⟨10, 0, 0, 0⟩
      ⟨10, 30, 0, 0⟩ "Scheduled" ""
      (AppointmentController.create_appointment "A1" ⟨⟨2025, 5, 1⟩, ⟨12, 0, 0, 0⟩⟩
        "First" "Ann" "ann@example.com" "123" ⟨2025, 6, 1⟩ ⟨9, 0, 0, 0⟩
        ⟨10, 0, 0, 0⟩ "Scheduled" "" []).2).1.success = true :=
  back_to_back_creates_succeed "A1" "C1" ⟨⟨2025, 5, 1⟩, ⟨12, 0, 0, 0⟩⟩
    ⟨⟨2025, 5, 1⟩, ⟨12, 5, 0, 0⟩⟩ "First" "Ann" "ann@example.com" "123"
    ⟨2025, 6, 1⟩ ⟨9, 0, 0, 0⟩ ⟨10, 0, 0, 0⟩ "Scheduled" "" "Third" "Cyd"
    "cyd@example.com" "789" ⟨10, 0, 0, 0⟩ ⟨10, 30, 0, 0⟩ "Scheduled" ""
    (by decide) (by decide) rfl

/-- C3: `validate` returns the empty error list for every input whose
title, client name, client email and client phone are non-blank, whose
email contains an at sign with a dot after the last one, whose status is
in the closed status set, and whose end time is strictly after its start
time by at least 15 minutes. -/
theorem validate_accepts_valid_input
    (title client_name client_email client_phone : String)
    (appt_date : Date) (start_time end_time : Time) (status : String)
    (h1 : strBlank title = false)
    (h2 : strBlank client_name = false)
    (h3 : strBlank client_email = false)
    (h4 : AppointmentValidator.badEmailFormat client_email = false)
    (h5 : strBlank client_phone = false)
    (h6 : AppointmentStatus.ALL.contains status = true)
    (h7 : Time.ltb start_time end_time = true)
    (h8 : (end_time.toMicros : Int) - start_time.toMicros ≥ 15 * 60 * 1000000) :
    AppointmentValidator.validate title client_name client_email client_phone
      appt_date start_time end_time status = [] := by
  have h8' : ¬ ((end_time.toMicros : Int) - start_time.toMicros < 15 * 60 * 1000000) :=
    not_lt.mpr h8
  simp [AppointmentValidator.validate, h1, h2, h3, h4, h5, h8',
    DateTime.leb, DateTime.combine]
  refine ⟨by simpa using h6, ?_, by omega⟩
  simpa [DateTime.ltb, Date.ltb_self] using h7

/-- Witness for C3: a fully valid one-hour appointment validates cleanly. -/
theorem validate_accepts_valid_input_witness :
    strBlank "Meeting" = false ∧
    AppointmentValidator.validate "Meeting" "Ann" "ann@example.com" "123"
      ⟨2025, 6, 1⟩ ⟨9, 0, 0, 0⟩ ⟨10, 0, 0, 0⟩ "Scheduled" = [] :=
  ⟨by decide,
   validate_accepts_valid_input "Meeting" "Ann" "ann@example.com" "123"
     ⟨2025, 6, 1⟩ ⟨9, 0, 0, 0⟩ ⟨10, 0, 0, 0⟩ "Scheduled"
     (by decide) (by decide) (by decide) (by decide) (by decide) (by decide)
     (by decide) (by decide)⟩

/-- C4: whenever `end_time <= start_time`, `validate` includes the
time-ordering error message, whatever the other fields are. -/
theorem validate_flags_nonpositive_window
    (title client_name client_email client_phone : String)
    (appt_date : Date) (start_time end_time : Time) (status : String)
    (h : Time.leb end_time start_time = true) :
    "End time must be after start time." ∈
      AppointmentValidator.validate title client_name client_email client_phone
        appt_date start_time end_time status := by
  have hleb : DateTime.leb (DateTime.combine appt_date end_time)
      (DateTime.combine appt_date start_time) = true := by
    simpa [DateTime.leb, DateTime.combine, DateTime.ltb_mk_same, Time.leb] using h
  simp [AppointmentValidator.validate, hleb]

/-- Witness for C4: a zero-length window on otherwise-invalid fields still
yields the ordering error. -/
theorem validate_flags_nonpositive_window_witness :
    Time.leb ⟨9, 0, 0, 0⟩ ⟨9, 0, 0, 0⟩ = true ∧
    "End time must be after start time." ∈
      AppointmentValidator.validate "" "Ann" "not-an-email" ""
        ⟨2025, 6, 1⟩ ⟨9, 0, 0, 0⟩ ⟨9, 0, 0, 0⟩ "Bogus" :=
  ⟨by decide,
   validate_flags_nonpositive_window "" "Ann" "not-an-email" ""
     ⟨2025, 6, 1⟩ ⟨9, 0, 0, 0⟩ ⟨9, 0, 0, 0⟩ "Bogus" (by decide)⟩

/-- C5, counterexample to the claim as stated: serialization formats times
of day with `strftime("%H:%M")`, so a start time of 09:00:30 comes back as
09:00:00 and `from_dict(to_dict(appt))` differs from `appt`. -/
theorem roundtrip_loses_seconds :
    Appointment.from_dict (Appointment.to_dict
      ⟨"X1", "Call", "Nia", "nia@example.com", "1", ⟨2025, 6, 1⟩,
        ⟨9, 0, 30, 0⟩, ⟨10, 0, 0, 0⟩, "Scheduled", "",
        ⟨⟨2025, 5, 1⟩, ⟨12, 0, 0, 0⟩⟩, ⟨⟨2025, 5, 1⟩, ⟨12, 0, 0, 0⟩⟩⟩) ≠
      ⟨"X1", "Call", "Nia", "nia@example.com", "1", ⟨2025, 6, 1⟩,
        ⟨9, 0, 30, 0⟩, ⟨10, 0, 0, 0⟩, "Scheduled", "",
        ⟨⟨2025, 5, 1⟩, ⟨12, 0, 0, 0⟩⟩, ⟨⟨2025, 5, 1⟩, ⟨12, 0, 0, 0⟩⟩⟩ := by
  decide

/-- C5 (amended: times of day at whole-minute precision): for every
appointment whose start and end times carry no seconds or microseconds —
all times the application's time inputs produce — deserializing the
serialized form reproduces every field:
`from_dict (to_dict appt) = appt`. -/
theorem roundtrip_minute_precision (a : Appointment)
    (h1 : a.start_time.second = 0) (h2 : a.start_time.microsecond = 0)
    (h3 : a.end_time.second = 0) (h4 : a.end_time.microsecond = 0) :
    Appointment.from_dict (Appointment.to_dict a) = a :=
  from_dict_to_dict a h1 h2 h3 h4

/-- Witness for C5's amended theorem: a whole-minute appointment
round-trips unchanged. -/
theorem roundtrip_minute_precision_witness :
    (⟨"X1", "Call", "Nia", "nia@example.com", "1", ⟨2025, 6, 1⟩,
        ⟨9, 0, 0, 0⟩, ⟨10, 0, 0, 0⟩, "Scheduled", "",
        ⟨⟨2025, 5, 1⟩, ⟨12, 0, 0, 0⟩⟩, ⟨⟨2025, 5, 1⟩, ⟨12, 0, 0, 0⟩⟩⟩ :
      Appointment).start_time.second = 0 ∧
    Appointment.from_dict (Appointment.to_dict
      ⟨"X1", "Call", "Nia", "nia@example.com", "1", ⟨2025, 6, 1⟩,
        ⟨9, 0, 0, 0⟩, ⟨10, 0, 0, 0⟩, "Scheduled", "",
        ⟨⟨2025, 5, 1⟩, ⟨12, 0, 0, 0⟩⟩, ⟨⟨2025, 5, 1⟩, ⟨12, 0, 0, 0⟩⟩⟩) =
      ⟨"X1", "Call", "Nia", "nia@example.com", "1", ⟨2025, 6, 1⟩,
        ⟨9, 0, 0, 0⟩, ⟨10, 0, 0, 0⟩, "Scheduled", "",
        ⟨⟨2025, 5, 1⟩, ⟨12, 0, 0, 0⟩⟩, ⟨⟨2025, 5, 1⟩, ⟨12, 0, 0, 0⟩⟩⟩ :=
  ⟨rfl, roundtrip_minute_precision _ rfl rfl rfl rfl⟩

/-- C6: for a stored id and a status in the closed set, `update_status`
returns success and the returned and stored record is the looked-up
record with only `status` replaced and `updated_at` restamped to now
(every other field unchanged; `updated_at` is therefore strictly advanced
whenever now is after the old stamp); no validation or conflict check is
run. It fails exactly when the id is not found or the status is outside
the closed set. -/
theorem update_status_spec (now : DateTime) (appt_id new_status : String) (s : Store) :
    (∀ ap, AppointmentRepository.get_by_id appt_id s = some ap →
      AppointmentStatus.ALL.contains new_status = true →
      ∃ s₂, AppointmentController.update_status now appt_id new_status s =
          ({ success := true,
             appointment := some { ap with status := new_status, updated_at := now } }, s₂) ∧
        AppointmentRepository.get_by_id appt_id s₂ =
          some { ap with status := new_status, updated_at := now } ∧
        (DateTime.ltb ap.updated_at now = true →
          DateTime.ltb ap.updated_at
            ({ ap with status := new_status, updated_at := now } : Appointment).updated_at = true))
    ∧ ((AppointmentController.update_status now appt_id new_status s).1.success = false ↔
        AppointmentRepository.get_by_id appt_id s = none ∨
          AppointmentStatus.ALL.contains new_status = false) := by
  constructor
  · intro ap hap hst
    have hstm : new_status ∈ AppointmentStatus.ALL := by simpa using hst
    obtain ⟨r, hr, har⟩ : ∃ r, List.find? (fun x => (x.id = appt_id : Bool)) s = some r ∧
        Appointment.from_dict r = ap := by
      unfold AppointmentRepository.get_by_id at hap
      cases h : List.find? (fun x => (x.id = appt_id : Bool)) s with
      | none => rw [h] at hap; simp at hap
      | some r => rw [h] at hap; exact ⟨r, rfl, by simpa using hap⟩
    have hrid : r.id = appt_id := by simpa using List.find?_some hr
    have hapid : ap.id = appt_id := by
      rw [← har]; simpa [Appointment.from_dict] using hrid
    have hai : ({ ap with status := new_status, updated_at := now } : Appointment).id = appt_id :=
      hapid
    obtain ⟨s₂, hu1, hu2⟩ :=
      updateRecords_find? appt_id { ap with status := new_status, updated_at := now } hai s r hr
    refine ⟨s₂, ?_, ?_, ?_⟩
    · simp [AppointmentController.update_status, AppointmentRepository.get_by_id,
        hr, har, hst, hstm, AppointmentRepository.update, hu1]
    · have hsec : ({ ap with status := new_status, updated_at := now } : Appointment).start_time.second = 0 := by
        rw [← har]; rfl
      have husec : ({ ap with status := new_status, updated_at := now } : Appointment).start_time.microsecond = 0 := by
        rw [← har]; rfl
      have hsec2 : ({ ap with status := new_status, updated_at := now } : Appointment).end_time.second = 0 := by
        rw [← har]; rfl
      have husec2 : ({ ap with status := new_status, updated_at := now } : Appointment).end_time.microsecond = 0 := by
        rw [← har]; rfl
      simp [AppointmentRepository.get_by_id, hu2,
        from_dict_to_dict _ hsec husec hsec2 husec2]
    · intro h; exact h
  · cases h : AppointmentRepository.get_by_id appt_id s with
    | none => simp [AppointmentController.update_status, h]
    | some ap =>
      by_cases hst : AppointmentStatus.ALL.contains new_status = true
      · simp only [AppointmentController.update_status, h, hst]
        cases hu : (AppointmentRepository.update now { ap with status := new_status } s).1 with
        | some a => simp [hu, hst]
        | none => simp [hu, hst]
      · have hst2 : AppointmentStatus.ALL.contains new_status = false := by
          simpa using hst
        have hst3 : new_status ∉ AppointmentStatus.ALL := by simpa using hst
        simp [AppointmentController.update_status, h, hst2, hst3]

/-- Witness for C6: completing the stored Scheduled appointment "A1"
succeeds; the stored record afterwards carries status Completed and the
new clock value, all other fields intact. -/
theorem update_status_spec_witness :
    ∃ s₂, AppointmentController.update_status ⟨⟨2025, 5, 2⟩, ⟨8, 0, 0, 0⟩⟩ "A1"
        "Completed"
        [⟨"A1", "First", "Ann", "ann@example.com", "123", ⟨2025, 6, 1⟩, (9, 0),
          (10, 0), "Scheduled", "", ⟨⟨2025, 5, 1⟩, ⟨12, 0, 0, 0⟩⟩,
          ⟨⟨2025, 5, 1⟩, ⟨12, 0, 0, 0⟩⟩⟩] =
        ({ success := true,
           appointment := some ⟨"A1", "First", "Ann", "ann@example.com", "123",
             ⟨2025, 6, 1⟩, ⟨9, 0, 0, 0⟩, ⟨10, 0, 0, 0⟩, "Completed", "",
             ⟨⟨2025, 5, 1⟩, ⟨12, 0, 0, 0⟩⟩, ⟨⟨2025, 5, 2⟩, ⟨8, 0, 0, 0⟩⟩⟩ }, s₂) ∧
      AppointmentRepository.get_by_id "A1" s₂ =
        some ⟨"A1", "First", "Ann", "ann@example.com", "123",
          ⟨2025, 6, 1⟩, ⟨9, 0, 0, 0⟩, ⟨10, 0, 0, 0⟩, "Completed", "",
          ⟨⟨2025, 5, 1⟩, ⟨12, 0, 0, 0⟩⟩, ⟨⟨2025, 5, 2⟩, ⟨8, 0, 0, 0⟩⟩⟩ := by
  obtain ⟨s₂, h1, h2, _⟩ := (update_status_spec ⟨⟨2025, 5, 2⟩, ⟨8, 0, 0, 0⟩⟩ "A1"
    "Completed"
    [⟨"A1", "First", "Ann", "ann@example.com", "123", ⟨2025, 6, 1⟩, (9, 0),
      (10, 0), "Scheduled", "", ⟨⟨2025, 5, 1⟩, ⟨12, 0, 0, 0⟩⟩,
      ⟨⟨2025, 5, 1⟩, ⟨12, 0, 0, 0⟩⟩⟩]).1
    ⟨"A1", "First", "Ann", "ann@example.com", "123", ⟨2025, 6, 1⟩,
      ⟨9, 0, 0, 0⟩, ⟨10, 0, 0, 0⟩, "Scheduled", "",
      ⟨⟨2025, 5, 1⟩, ⟨12, 0, 0, 0⟩⟩, ⟨⟨2025, 5, 1⟩, ⟨12, 0, 0, 0⟩⟩⟩
    (by decide) (by decide)
  exact ⟨s₂, h1, h2⟩

/-- C7: `delete_appointment` fails (with the not-found error, store
untouched) when no stored record has the id, and succeeds when one does;
after a successful delete, a lookup of that id returns absent. -/
theorem delete_spec (appt_id : String) (s : Store) :
    ((∀ r ∈ s, r.id ≠ appt_id) →
      AppointmentController.delete_appointment appt_id s =
        ({ success := false, errors := ["Appointment not found."] }, s))
    ∧ (∀ r ∈ s, r.id = appt_id →
      (AppointmentController.delete_appointment appt_id s).1.success = true ∧
      AppointmentRepository.get_by_id appt_id
        (AppointmentController.delete_appointment appt_id s).2 = none) := by
  constructor
  · intro hall
    have hfilter : List.filter (fun r => !(r.id = appt_id : Bool)) s = s :=
      List.filter_eq_self.mpr (fun r hr => by simp [hall r hr])
    simp [AppointmentController.delete_appointment,
      AppointmentRepository.delete, hfilter]
  · intro r hr hid
    have hlen : (List.filter (fun x => !(x.id = appt_id : Bool)) s).length ≠ s.length := by
      intro he
      have := List.filter_length_eq_length.mp he r hr
      simp [hid] at this
    refine ⟨?_, ?_⟩
    · simp [AppointmentController.delete_appointment,
        AppointmentRepository.delete, hlen]
    · simp only [AppointmentController.delete_appointment,
        AppointmentRepository.delete, hlen, if_false, if_true,
        AppointmentRepository.get_by_id]
      have hnone : List.find? (fun r => (r.id = appt_id : Bool))
          (List.filter (fun r => !(r.id = appt_id : Bool)) s) = none := by
        rw [List.find?_eq_none]
        intro x hx
        have hx2 := (List.mem_filter.mp hx).2
        simpa using hx2
      rw [hnone]
      rfl

/-- Witness for C7: deleting an absent id fails and leaves the one-record
store alone; deleting the present id succeeds and the record is gone. -/
theorem delete_spec_witness :
    AppointmentController.delete_appointment "ZZ"
        [⟨"A1", "First", "Ann", "ann@example.com", "123", ⟨2025, 6, 1⟩, (9, 0),
          (10, 0), "Scheduled", "", ⟨⟨2025, 5, 1⟩, ⟨12, 0, 0, 0⟩⟩,
          ⟨⟨2025, 5, 1⟩, ⟨12, 0, 0, 0⟩⟩⟩] =
      ({ success := false, errors := ["Appointment not found."] },
        [⟨"A1", "First", "Ann", "ann@example.com", "123", ⟨2025, 6, 1⟩, (9, 0),
          (10, 0), "Scheduled", "", ⟨⟨2025, 5, 1⟩, ⟨12, 0, 0, 0⟩⟩,
          ⟨⟨2025, 5, 1⟩, ⟨12, 0, 0, 0⟩⟩⟩]) ∧
    (AppointmentController.delete_appointment "A1"
        [⟨"A1", "First", "Ann", "ann@example.com", "123", ⟨2025, 6, 1⟩, (9, 0),
          (10, 0), "Scheduled", "", ⟨⟨2025, 5, 1⟩, ⟨12, 0, 0, 0⟩⟩,
          ⟨⟨2025, 5, 1⟩, ⟨12, 0, 0, 0⟩⟩⟩]).1.success = true ∧
    AppointmentRepository.get_by_id "A1"
        (AppointmentController.delete_appointment "A1"
          [⟨"A1", "First", "Ann", "ann@example.com", "123", ⟨2025, 6, 1⟩, (9, 0),
            (10, 0), "Scheduled", "", ⟨⟨2025, 5, 1⟩, ⟨12, 0, 0, 0⟩⟩,
            ⟨⟨2025, 5, 1⟩, ⟨12, 0, 0, 0⟩⟩⟩]).2 = none :=
  ⟨(delete_spec "ZZ"
      [⟨"A1", "First", "Ann", "ann@example.com", "123", ⟨2025, 6, 1⟩, (9, 0),
        (10, 0), "Scheduled", "", ⟨⟨2025, 5, 1⟩, ⟨12, 0, 0, 0⟩⟩,
        ⟨⟨2025, 5, 1⟩, ⟨12, 0, 0, 0⟩⟩⟩]).1 (by decide),
   (delete_spec "A1"
      [⟨"A1", "First", "Ann", "ann@example.com", "123", ⟨2025, 6, 1⟩, (9, 0),
        (10, 0), "Scheduled", "", ⟨⟨2025, 5, 1⟩, ⟨12, 0, 0, 0⟩⟩,
        ⟨⟨2025, 5, 1⟩, ⟨12, 0, 0, 0⟩⟩⟩]).2
     ⟨"A1", "First", "Ann", "ann@example.com", "123", ⟨2025, 6, 1⟩, (9, 0),
       (10, 0), "Scheduled", "", ⟨⟨2025, 5, 1⟩, ⟨12, 0, 0, 0⟩⟩,
       ⟨⟨2025, 5, 1⟩, ⟨12, 0, 0, 0⟩⟩⟩ (by decide) (by decide)⟩

/-- C8: on every store and at every clock value — hence after any sequence
of create, update and delete operations — `get_stats` reports `total`
equal to the length of `get_all` and `upcoming` equal to the length of
`get_upcoming`. -/
theorem stats_total_upcoming_consistent (now : DateTime) (s : Store) :
    (AppointmentRepository.get_stats now s).total =
        (AppointmentRepository.get_all s).length ∧
      (AppointmentRepository.get_stats now s).upcoming =
        (AppointmentRepository.get_upcoming now s).length :=
  ⟨rfl, rfl⟩

/-- C9: whenever `create_appointment` or `update_appointment` returns a
failure result — validation errors, a conflict error, or not-found — the
stored collection is exactly what it was before the call. -/
theorem failed_writes_leave_store_unchanged
    (newId : String) (now : DateTime) (appt_id : String)
    (title client_name client_email client_phone : String)
    (appt_date : Date) (start_time end_time : Time) (status notes : String)
    (s : Store) :
    ((AppointmentController.create_appointment newId now title client_name
          client_email client_phone appt_date start_time end_time status notes
          s).1.success = false →
      (AppointmentController.create_appointment newId now title client_name
          client_email client_phone appt_date start_time end_time status notes
          s).2 = s)
    ∧ ((AppointmentController.update_appointment now appt_id title client_name
          client_email client_phone appt_date start_time end_time status notes
          s).1.success = false →
      (AppointmentController.update_appointment now appt_id title client_name
          client_email client_phone appt_date start_time end_time status notes
          s).2 = s) := by
  constructor
  · by_cases hv : AppointmentValidator.validate title client_name client_email
        client_phone appt_date start_time end_time status = []
    · cases hcc : AppointmentController.check_conflict appt_date start_time
          end_time none s with
      | some c =>
        intro _
        simp [AppointmentController.create_appointment, hv, hcc]
      | none =>
        intro h
        simp [AppointmentController.create_appointment, hv, hcc] at h
    · intro _
      simp [AppointmentController.create_appointment, hv]
  · by_cases hv : AppointmentValidator.validate title client_name client_email
        client_phone appt_date start_time end_time status = []
    · cases hid : AppointmentRepository.get_by_id appt_id s with
      | none =>
        intro _
        simp [AppointmentController.update_appointment, hv, hid]
      | some existing =>
        cases hcc : AppointmentController.check_conflict appt_date start_time
            end_time (some appt_id) s with
        | some c =>
          intro _
          simp [AppointmentController.update_appointment, hv, hid, hcc]
        | none =>
          intro h
          simp [AppointmentController.update_appointment, hv, hid, hcc] at h
    · intro _
      simp [AppointmentController.update_appointment, hv]

/-- Witness for C9: a create that fails validation on the empty store
leaves it empty. -/
theorem failed_writes_leave_store_unchanged_witness :
    (AppointmentController.create_appointment "B1" ⟨⟨2025, 5, 1⟩, ⟨12, 0, 0, 0⟩⟩
        "" "Bob" "bob@example.com" "456" ⟨2025, 6, 1⟩ ⟨9, 30, 0, 0⟩ ⟨9, 45, 0, 0⟩
        "Scheduled" "" []).1.success = false ∧
    (AppointmentController.create_appointment "B1" ⟨⟨2025, 5, 1⟩, ⟨12, 0, 0, 0⟩⟩
        "" "Bob" "bob@example.com" "456" ⟨2025, 6, 1⟩ ⟨9, 30, 0, 0⟩ ⟨9, 45, 0, 0⟩
        "Scheduled" "" []).2 = [] :=
  ⟨by decide,
   (failed_writes_leave_store_unchanged "B1" ⟨⟨2025, 5, 1⟩, ⟨12, 0, 0, 0⟩⟩ "ID"
     "" "Bob" "bob@example.com" "456" ⟨2025, 6, 1⟩ ⟨9, 30, 0, 0⟩ ⟨9, 45, 0, 0⟩
     "Scheduled" "" []).1 (by decide)⟩

/-- C10: `update_appointment` validates fields before resolving the id, so
an unresolvable id with invalid fields yields the validation error list,
not the not-found error, and the store is untouched. -/
theorem update_validates_before_existence
    (now : DateTime) (appt_id : String)
    (title client_name client_email client_phone : String)
    (appt_date : Date) (start_time end_time : Time) (status notes : String)
    (s : Store)
    (_hid : AppointmentRepository.get_by_id appt_id s = none)
    (hval : AppointmentValidator.validate title client_name client_email
      client_phone appt_date start_time end_time status ≠ []) :
    AppointmentController.update_appointment now appt_id title client_name
        client_email client_phone appt_date start_time end_time status notes s =
      ({ success := false,
         errors := AppointmentValidator.validate title client_name client_email
           client_phone appt_date start_time end_time status }, s) := by
  simp [AppointmentController.update_appointment, hval]

/-- Witness for C10: an empty title and an id absent from the empty store
produce the validation errors, not the not-found error. -/
theorem update_validates_before_existence_witness :
    AppointmentRepository.get_by_id "NOPE" [] = none ∧
    AppointmentController.update_appointment ⟨⟨2025, 5, 1⟩, ⟨12, 0, 0, 0⟩⟩ "NOPE"
        "" "Ann" "ann@example.com" "123" ⟨2025, 6, 1⟩ ⟨9, 0, 0, 0⟩ ⟨10, 0, 0, 0⟩
        "Scheduled" "" [] =
      ({ success := false,
         errors := AppointmentValidator.validate "" "Ann" "ann@example.com" "123"
           ⟨2025, 6, 1⟩ ⟨9, 0, 0, 0⟩ ⟨10, 0, 0, 0⟩ "Scheduled" }, []) :=
  ⟨by decide,
   update_validates_before_existence ⟨⟨2025, 5, 1⟩, ⟨12, 0, 0, 0⟩⟩ "NOPE"
     "" "Ann" "ann@example.com" "123" ⟨2025, 6, 1⟩ ⟨9, 0, 0, 0⟩ ⟨10, 0, 0, 0⟩
     "Scheduled" "" [] (by decide) (by decide)⟩
